import Mathlib

/-!
Verification of the Remix IDE plugin manager (`src/app/plugin/pluginManager.js`):
the message broker that routes envelopes between sandboxed plugin iframes and
host-side endpoint handlers (`pluginAPI`).

The JavaScript state is a `PluginManager` instance with three mutable fields:
`plugins` (title → {content, modal, origin}), `origins` (origin URL → title)
and `inFocus` (title of the focused plugin, initially undefined).  JavaScript
plain objects used as string-keyed dictionaries are embedded as association
lists with unique keys: assignment replaces the value in place or appends a
fresh key at the end (matching property insertion order), `delete` removes the
key, lookup returns the bound value or `none` for a missing property.
-/

/-- JSON-like protocol value: the payloads carried in envelope `value` fields,
error fields and handler results. -/
inductive Jv where
  | null
  | bool (b : Bool)
  | num (n : Int)
  | str (s : String)
  | arr (elems : List Jv)
  | obj (fields : List (String × Jv))

/-- JavaScript truthiness of a `Jv` (objects and arrays are always truthy;
`null`, `false`, `0` and `""` are falsy). -/
def Jv.truthy : Jv → Bool
  | .null => false
  | .bool b => b
  | .num n => n != 0
  | .str s => s != ""
  | .arr _ => true
  | .obj _ => true

/-- Lookup of a property in a JavaScript string-keyed object
(`m[k]`, yielding `undefined` — here `none` — when absent). -/
def objGet {α : Type} (m : List (String × α)) (k : String) : Option α :=
  match m with
  | [] => none
  | (k', v') :: rest => if k' = k then some v' else objGet rest k

/-- Property assignment `m[k] = v` on a JavaScript object: overwrite in place
when the key is present, append at the end otherwise. -/
def objSet {α : Type} (m : List (String × α)) (k : String) (v : α) : List (String × α) :=
  match m with
  | [] => [(k, v)]
  | (k', v') :: rest => if k' = k then (k, v) :: rest else (k', v') :: objSet rest k v

/-- Property removal `delete m[k]` on a JavaScript object. -/
def objDelete {α : Type} (m : List (String × α)) (k : String) : List (String × α) :=
  match m with
  | [] => []
  | (k', v') :: rest => if k' = k then objDelete rest k else (k', v') :: objDelete rest k

theorem objGet_objSet_self {α : Type} (m : List (String × α)) (k : String) (v : α) :
    objGet (objSet m k v) k = some v := by
  induction m with
  | nil => simp [objGet, objSet]
  | cons p rest ih =>
    obtain ⟨k', v'⟩ := p
    by_cases h : k' = k <;> simp [objGet, objSet, h, ih]

theorem objGet_objSet_ne {α : Type} (m : List (String × α)) (k k' : String) (v : α)
    (h : k' ≠ k) : objGet (objSet m k v) k' = objGet m k' := by
  induction m with
  | nil => simp [objGet, objSet, Ne.symm h]
  | cons p rest ih =>
    obtain ⟨k₀, v₀⟩ := p
    by_cases h₀ : k₀ = k
    · subst h₀
      simp [objGet, objSet, Ne.symm h]
    · simp [objGet, objSet, h₀, ih]

theorem objGet_objDelete_self {α : Type} (m : List (String × α)) (k : String) :
    objGet (objDelete m k) k = none := by
  induction m with
  | nil => simp [objGet, objDelete]
  | cons p rest ih =>
    obtain ⟨k', v'⟩ := p
    by_cases h : k' = k <;> simp [objGet, objDelete, h, ih]

theorem objGet_objDelete_ne {α : Type} (m : List (String × α)) (k k' : String)
    (h : k' ≠ k) : objGet (objDelete m k) k' = objGet m k' := by
  induction m with
  | nil => simp [objGet, objDelete]
  | cons p rest ih =>
    obtain ⟨k₀, v₀⟩ := p
    by_cases h₀ : k₀ = k
    · subst h₀
      simp [objGet, objDelete, Ne.symm h, ih]
    · simp [objGet, objDelete, h₀, ih]

/-- The record stored by `register`: `{ content, modal, origin: desc.url }`.
`content` and `modal` are opaque DOM handles, embedded as numeric ids. -/
structure PluginRecord where
  content : Nat
  modal : Nat
  origin : String
deriving DecidableEq

/-- The mutable state of a `PluginManager` instance: `self.plugins`,
`self.origins` and `self.inFocus` (undefined at construction, hence `none`). -/
structure PMState where
  plugins : List (String × PluginRecord)
  origins : List (String × String)
  inFocus : Option String
deriving DecidableEq

/-- The state right after the constructor ran: both dictionaries empty,
`inFocus` undefined. -/
def pmEmpty : PMState := { plugins := [], origins := [], inFocus := none }

/-- A wire envelope, in parsed form.  `id` is `none` for notifications (the
field is absent), `error` is `none` when the field is absent. -/
structure Envelope where
  id : Option Jv := none
  action : String
  key : String
  type : String
  value : List Jv
  error : Option Jv := none

/-- One `postMessage` delivery: the title of the plugin posted to, the target
origin passed to `postMessage` (the plugin's registered origin), and the
message (the parsed form of the JSON string the code sends). -/
structure Delivery where
  title : String
  targetOrigin : String
  msg : Envelope

/-- `register (desc, modal, content)`: store
`{content, modal, origin: desc.url}` under `desc.title` in `plugins` and bind
`desc.url` to `desc.title` in `origins`.  Nothing else (in particular not the
old origin of a re-registered title, and not `inFocus`) is touched. -/
def PMState.register (s : PMState) (title url : String) (modal content : Nat) : PMState :=
  { s with
    plugins := objSet s.plugins title { content := content, modal := modal, origin := url }
    origins := objSet s.origins url title }

/-- `unregister (desc)`: `delete plugins[desc.title]; delete origins[desc.url]`. -/
def PMState.unregister (s : PMState) (title url : String) : PMState :=
  { s with
    plugins := objDelete s.plugins title
    origins := objDelete s.origins url }

/-- `post (name, value)`: if `plugins[name]` exists (a record object, always
truthy), send `value` to its iframe with target origin `plugins[name].origin`;
otherwise do nothing.  Returns the deliveries performed. -/
def PMState.post (s : PMState) (name : String) (msg : Envelope) : List Delivery :=
  match objGet s.plugins name with
  | some r => [{ title := name, targetOrigin := r.origin, msg := msg }]
  | none => []

/-- `broadcast (value)`: `post` to every key of `plugins`, in property order. -/
def PMState.broadcast (s : PMState) (msg : Envelope) : List Delivery :=
  (s.plugins.map Prod.fst).flatMap (fun t => s.post t msg)

/-- `postToOrigin (origin, value)`: if `origins[origin]` is truthy (present and
not the empty string), `post` to that title. -/
def PMState.postToOrigin (s : PMState) (origin : String) (msg : Envelope) : List Delivery :=
  match objGet s.origins origin with
  | some t => if t = "" then [] else s.post t msg
  | none => []

/-- A host-side endpoint handler `pluginAPI[key][type]`.  It is applied to the
request's `value` array after the listener has unshifted the resolved plugin
title onto it.  The completion callback that the listener pushes onto the
array is modelled by the return value: the `(error, result)` pair the handler
passes to the callback, under the contract that a handler invokes its
completion callback exactly once.  `Jv.null` as error means success. -/
def HandlerFn : Type := List Jv → Jv × Jv

/-- The endpoint table `pluginAPI`: `api key type` is the handler at
`pluginAPI[key][type]`, `none` when either property is missing. -/
def Api : Type := String → String → Option HandlerFn

/-- The outcome of `JSON.parse (event.data)` on one inbound `message` event,
abstracting the raw wire string by how the listener can consume it:
* `malformed` — a string `JSON.parse` rejects (the parse throws);
* `badValue d` — the string parses to `d`, but `d.value` is not an array, so
  `data.value.unshift(extension)` throws;
* `ok id key ty vals` — the string parses to an object whose `value` property
  is the array `vals`; `id`, `key` and `ty` are its `id`, `key` and `type`
  properties. -/
inductive Raw where
  | malformed
  | badValue (d : Jv)
  | ok (id : Jv) (key : String) (ty : String) (vals : List Jv)

/-- The envelope built by the listener's local `response` helper:
`{id: callid, action: 'response', key, type, error, value: [result]}`. -/
def responseEnv (key ty : String) (callid : Jv) (err result : Jv) : Envelope :=
  { id := some callid, action := "response", key := key, type := ty,
    value := [result], error := some err }

/-- The observable outcome of one invocation of the window `message`
listener: the broker state afterwards, the `postMessage` deliveries made, the
endpoint-handler invocations made (key, type, argument array as passed to
`apply`, minus the trailing callback), and whether an exception escaped the
listener (`threw = true` means the invocation aborted with an uncaught
throw). -/
structure MsgResult where
  state : PMState
  sends : List Delivery
  handlerCalls : List (String × String × List Jv)
  threw : Bool

/-- The window `message` listener installed by the constructor, for one event
with origin `origin` and payload `raw`.  Mirrors the source line by line:
resolve `origins[event.origin]`; a falsy result (missing, or the empty-string
title) returns without any effect; then `JSON.parse(event.data)` (a throw
escapes: the code has no try/catch); then `data.value.unshift(extension)` and
the callback push; then dispatch on `pluginAPI[data.key][data.type]`, either
invoking the handler (whose completion sends a response via `postToOrigin` to
the event's origin) or sending the endpoint-not-present error response. -/
def onMessage (api : Api) (s : PMState) (origin : String) (raw : Raw) : MsgResult :=
  match objGet s.origins origin with
  | none => { state := s, sends := [], handlerCalls := [], threw := false }
  | some extension =>
    if extension = "" then { state := s, sends := [], handlerCalls := [], threw := false }
    else
      match raw with
      | .malformed => { state := s, sends := [], handlerCalls := [], threw := true }
      | .badValue _ => { state := s, sends := [], handlerCalls := [], threw := true }
      | .ok callid key ty vals =>
        let args := Jv.str extension :: vals
        match api key ty with
        | some h =>
          let er := h args
          { state := s
            sends := s.postToOrigin origin (responseEnv key ty callid er.1 er.2)
            handlerCalls := [(key, ty, args)]
            threw := false }
        | none =>
          { state := s
            sends := s.postToOrigin origin
              (responseEnv key ty callid
                (Jv.str ("Endpoint " ++ key ++ "/" ++ ty ++ " not present")) Jv.null)
            handlerCalls := []
            threw := false }

/-- The `unfocus` notification `{action:'notification', key:'app',
type:'unfocus', value:[]}`. -/
def unfocusEnv : Envelope :=
  { action := "notification", key := "app", type := "unfocus", value := [] }

/-- The `focus` notification `{action:'notification', key:'app', type:'focus',
value:[]}`. -/
def focusEnv : Envelope :=
  { action := "notification", key := "app", type := "focus", value := [] }

/-- The `compilationData` notification `{action:'notification',
key:'compiler', type:'compilationData', value:[data]}`. -/
def compilationDataEnv (d : Jv) : Envelope :=
  { action := "notification", key := "compiler", type := "compilationData", value := [d] }

/-- The `tabChanged` handler installed by the constructor (the focus state
machine).  `gcr tab` models `pluginAPI.compiler.getCompilationResult(tab, cb)`
invoking its callback synchronously with the pair `(error, data)`.  Mirrors
the source: if `inFocus` is truthy and differs from the tab, post `unfocus`
to the old focus; if `plugins[tabName]` exists, post `focus` to it, assign
`inFocus = tabName`, then in the `getCompilationResult` callback return when
`error` is falsy (`if (!error) return`) and otherwise post `compilationData`
with `[data]`. -/
def tabChanged (gcr : String → Jv × Jv) (s : PMState) (tabName : String) :
    PMState × List Delivery :=
  let unfocusSends :=
    match s.inFocus with
    | some f => if f ≠ "" ∧ f ≠ tabName then s.post f unfocusEnv else []
    | none => []
  match objGet s.plugins tabName with
  | some _ =>
    let focusSends := s.post tabName focusEnv
    let s' := { s with inFocus := some tabName }
    let ed := gcr tabName
    let compSends :=
      if ed.1.truthy then s'.post tabName (compilationDataEnv ed.2) else []
    (s', unfocusSends ++ focusSends ++ compSends)
  | none => (s, unfocusSends)

/-- Is a `Jv` an object literal? -/
def Jv.isObj : Jv → Bool
  | .obj _ => true
  | _ => false

/-- The spec's §8 example population: plugins `A` (origin `https://a`) and `B`
(origin `https://b`) registered, `A` focused. -/
def sampleState : PMState :=
  { plugins := [("A", { content := 0, modal := 0, origin := "https://a" }),
                ("B", { content := 1, modal := 0, origin := "https://b" })]
    origins := [("https://a", "A"), ("https://b", "B")]
    inFocus := some "A" }

/-- An endpoint table with no handlers at all. -/
def apiEmpty : Api := fun _ _ => none

/-- The spec's §8 example handler: `config/getConfig` succeeding with
`"hello"`. -/
def sampleHandler : HandlerFn := fun _ => (Jv.null, Jv.str "hello")

/-- An endpoint table holding exactly the `config/getConfig` handler. -/
def sampleApi : Api := fun key ty =>
  if key = "config" ∧ ty = "getConfig" then some sampleHandler else none

/-- C1: an inbound message whose origin is not a key of `origins` is dropped
before anything else happens: no delivery, no handler invocation, no thrown
exception, and the broker state is unchanged — whatever the payload. -/
theorem untrusted_origin_dropped (api : Api) (s : PMState) (origin : String) (raw : Raw)
    (h : objGet s.origins origin = none) :
    onMessage api s origin raw =
      { state := s, sends := [], handlerCalls := [], threw := false } := by
  unfold onMessage
  rw [h]

/-- Witness for C1: a malformed payload from the unregistered origin
`https://evil` produces no outbound traffic and leaves the state intact. -/
theorem untrusted_origin_dropped_witness :
    objGet sampleState.origins "https://evil" = none ∧
    onMessage apiEmpty sampleState "https://evil" Raw.malformed =
      { state := sampleState, sends := [], handlerCalls := [], threw := false } :=
  ⟨rfl, untrusted_origin_dropped apiEmpty sampleState "https://evil" Raw.malformed rfl⟩

/-- C2: a request from a registered origin for a present `(key, type)` whose
handler completes successfully (error `null`) produces exactly one delivery:
a response to the originating plugin's transport, echoing `id`, `key` and
`type`, with `value = [result]` and a `null` error, and the handler is
invoked exactly once with the plugin title prepended to the arguments. -/
theorem request_success_single_response (api : Api) (s : PMState) (origin t : String)
    (r : PluginRecord) (h : HandlerFn) (callid : Jv) (key ty : String) (vals : List Jv)
    (res : Jv)
    (hres : objGet s.origins origin = some t) (hne : t ≠ "")
    (hplug : objGet s.plugins t = some r)
    (hapi : api key ty = some h)
    (hh : h (Jv.str t :: vals) = (Jv.null, res)) :
    onMessage api s origin (Raw.ok callid key ty vals) =
      { state := s
        sends := [{ title := t, targetOrigin := r.origin,
                    msg := { id := some callid, action := "response", key := key, type := ty,
                             value := [res], error := some Jv.null } }]
        handlerCalls := [(key, ty, Jv.str t :: vals)]
        threw := false } := by
  unfold onMessage
  rw [hres]
  simp [hne, hapi, hh, PMState.postToOrigin, hres, PMState.post, hplug, responseEnv]

/-- Witness for C2: the spec's §8 example — `A` requests `config/getConfig`
with `["f.txt"]`, the handler succeeds with `"hello"`, and exactly the
expected response goes back to `A` at `https://a`. -/
theorem request_success_single_response_witness :
    objGet sampleState.origins "https://a" = some "A" ∧
    sampleApi "config" "getConfig" = some sampleHandler ∧
    onMessage sampleApi sampleState "https://a"
        (Raw.ok (Jv.num 1) "config" "getConfig" [Jv.str "f.txt"]) =
      { state := sampleState
        sends := [{ title := "A", targetOrigin := "https://a",
                    msg := { id := some (Jv.num 1), action := "response", key := "config",
                             type := "getConfig", value := [Jv.str "hello"],
                             error := some Jv.null } }]
        handlerCalls := [("config", "getConfig", [Jv.str "A", Jv.str "f.txt"])]
        threw := false } :=
  ⟨rfl, rfl,
    request_success_single_response sampleApi sampleState "https://a" "A"
      { content := 0, modal := 0, origin := "https://a" } sampleHandler
      (Jv.num 1) "config" "getConfig" [Jv.str "f.txt"] (Jv.str "hello")
      rfl (by decide) rfl rfl rfl⟩

/-- Counterexample for C3: for a request whose `(key, type)` has no handler
the error sent back is the plain string `Endpoint config/getConfig not
present` — a string, not an object carrying a `code: 404` field as the claim
states. -/
theorem notfound_error_is_bare_string :
    (onMessage apiEmpty sampleState "https://a"
        (Raw.ok (Jv.num 1) "config" "getConfig" [])).sends =
      [{ title := "A", targetOrigin := "https://a",
         msg := { id := some (Jv.num 1), action := "response", key := "config",
                  type := "getConfig", value := [Jv.null],
                  error := some (Jv.str "Endpoint config/getConfig not present") } }] ∧
    (Jv.str "Endpoint config/getConfig not present").isObj = false :=
  ⟨rfl, rfl⟩

/-- C3 (amended): a request from a registered origin for an absent
`(key, type)` yields exactly one response, to the originating plugin, echoing
`id`, `key`, `type`, with `value = [null]` and the non-null error string
`Endpoint <key>/<type> not present`, and no handler is invoked. -/
theorem endpoint_not_found_response (api : Api) (s : PMState) (origin t : String)
    (r : PluginRecord) (callid : Jv) (key ty : String) (vals : List Jv)
    (hres : objGet s.origins origin = some t) (hne : t ≠ "")
    (hplug : objGet s.plugins t = some r)
    (hapi : api key ty = none) :
    onMessage api s origin (Raw.ok callid key ty vals) =
      { state := s
        sends := [{ title := t, targetOrigin := r.origin,
                    msg := { id := some callid, action := "response", key := key, type := ty,
                             value := [Jv.null],
                             error := some (Jv.str
                               ("Endpoint " ++ key ++ "/" ++ ty ++ " not present")) } }]
        handlerCalls := []
        threw := false } := by
  unfold onMessage
  rw [hres]
  simp [hne, hapi, PMState.postToOrigin, hres, PMState.post, hplug, responseEnv]

/-- Witness for C3's amended theorem: `A` requests the absent
`config/getConfig` against the empty endpoint table and gets exactly the
not-present error response, with no handler call. -/
theorem endpoint_not_found_response_witness :
    objGet sampleState.origins "https://a" = some "A" ∧
    apiEmpty "config" "getConfig" = none ∧
    onMessage apiEmpty sampleState "https://a"
        (Raw.ok (Jv.num 1) "config" "getConfig" []) =
      { state := sampleState
        sends := [{ title := "A", targetOrigin := "https://a",
                    msg := { id := some (Jv.num 1), action := "response", key := "config",
                             type := "getConfig", value := [Jv.null],
                             error := some (Jv.str "Endpoint config/getConfig not present") } }]
        handlerCalls := []
        threw := false } :=
  ⟨rfl, rfl,
    endpoint_not_found_response apiEmpty sampleState "https://a" "A"
      { content := 0, modal := 0, origin := "https://a" }
      (Jv.num 1) "config" "getConfig" [] rfl (by decide) rfl rfl⟩

/-- The state after `register({title:'A', url:'https://a1'})` followed by
`register({title:'A', url:'https://a2'})` from a fresh manager. -/
def reRegState : PMState :=
  (pmEmpty.register "A" "https://a1" 0 0).register "A" "https://a2" 0 1

/-- Counterexample for C5: after re-registering title `A` under the new
origin `https://a2`, the old origin `https://a1` still resolves to `A`
(`register` never deletes the superseded `origins` entry), and a request
arriving from `https://a1` is processed and answered, not dropped as
untrusted. -/
theorem stale_origin_still_trusted :
    objGet reRegState.origins "https://a1" = some "A" ∧
    onMessage apiEmpty reRegState "https://a1"
        (Raw.ok (Jv.num 7) "config" "getConfig" []) =
      { state := reRegState
        sends := [{ title := "A", targetOrigin := "https://a2",
                    msg := { id := some (Jv.num 7), action := "response", key := "config",
                             type := "getConfig", value := [Jv.null],
                             error := some (Jv.str "Endpoint config/getConfig not present") } }]
        handlerCalls := []
        threw := false } :=
  ⟨rfl, rfl⟩

/-- C5 (amended): re-registering title `t` under a new origin `u2` leaves the
old binding `origins[u1] = t` in place, so a later message from `u1` is still
treated as trusted: it is routed on behalf of `t` and its response is
delivered to `t`'s transport at the newly registered origin `u2`. -/
theorem reregister_old_origin_still_resolves (api : Api) (s : PMState)
    (t u1 u2 : String) (m c : Nat) (callid : Jv) (key ty : String) (vals : List Jv)
    (hres : objGet s.origins u1 = some t) (hne : u1 ≠ u2) (ht : t ≠ "")
    (hapi : api key ty = none) :
    objGet (s.register t u2 m c).origins u1 = some t ∧
    onMessage api (s.register t u2 m c) u1 (Raw.ok callid key ty vals) =
      { state := s.register t u2 m c
        sends := [{ title := t, targetOrigin := u2,
                    msg := { id := some callid, action := "response", key := key, type := ty,
                             value := [Jv.null],
                             error := some (Jv.str
                               ("Endpoint " ++ key ++ "/" ++ ty ++ " not present")) } }]
        handlerCalls := []
        threw := false } := by
  have hres' : objGet (s.register t u2 m c).origins u1 = some t := by
    show objGet (objSet s.origins u2 t) u1 = some t
    rw [objGet_objSet_ne s.origins u2 u1 t hne]
    exact hres
  have hplug' : objGet (s.register t u2 m c).plugins t =
      some { content := c, modal := m, origin := u2 } := by
    show objGet (objSet s.plugins t _) t = some _
    exact objGet_objSet_self _ _ _
  refine ⟨hres', ?_⟩
  unfold onMessage
  rw [hres']
  simp [ht, hapi, PMState.postToOrigin, hres', PMState.post, hplug', responseEnv]

/-- Witness for C5's amended theorem: the concrete re-registration above,
probed with a request from the stale origin `https://a1`. -/
theorem reregister_old_origin_still_resolves_witness :
    objGet (pmEmpty.register "A" "https://a1" 0 0).origins "https://a1" = some "A" ∧
    objGet ((pmEmpty.register "A" "https://a1" 0 0).register "A" "https://a2" 0 1).origins
        "https://a1" = some "A" :=
  ⟨rfl,
    (reregister_old_origin_still_resolves apiEmpty (pmEmpty.register "A" "https://a1" 0 0)
      "A" "https://a1" "https://a2" 0 1 (Jv.num 7) "config" "getConfig" []
      rfl (by decide) (by decide) rfl).1⟩

/-- Counterexample for C6: a payload that `JSON.parse` rejects, arriving from
the registered origin `https://a`, is not dropped silently — the listener
invocation aborts with an uncaught exception (`threw = true`), because the
source wraps `JSON.parse(event.data)` in no try/catch. -/
theorem malformed_payload_throws :
    onMessage apiEmpty sampleState "https://a" Raw.malformed =
      { state := sampleState, sends := [], handlerCalls := [], threw := true } ∧
    (onMessage apiEmpty sampleState "https://a" Raw.malformed).threw = true :=
  ⟨rfl, rfl⟩

/-- C6 (amended): on a payload from a registered origin that fails to decode
(`JSON.parse` throws, or the parsed value has no usable `value` array), no
response is sent and the broker state is untouched — so the next message is
processed from an intact state — but the listener is not total: the
invocation ends in an uncaught exception instead of a silent return. -/
theorem malformed_payload_no_response (api : Api) (s : PMState) (origin t : String)
    (raw : Raw) (hres : objGet s.origins origin = some t) (hne : t ≠ "")
    (hraw : ∀ callid key ty vals, raw ≠ Raw.ok callid key ty vals) :
    onMessage api s origin raw =
      { state := s, sends := [], handlerCalls := [], threw := true } := by
  unfold onMessage
  rw [hres]
  cases raw with
  | malformed => simp [hne]
  | badValue d => simp [hne]
  | ok callid key ty vals => exact absurd rfl (hraw callid key ty vals)

/-- Witness for C6's amended theorem: a malformed payload from `https://a`. -/
theorem malformed_payload_no_response_witness :
    objGet sampleState.origins "https://a" = some "A" ∧
    onMessage apiEmpty sampleState "https://a" Raw.malformed =
      { state := sampleState, sends := [], handlerCalls := [], threw := true } :=
  ⟨rfl,
    malformed_payload_no_response apiEmpty sampleState "https://a" "A" Raw.malformed
      rfl (by decide) (fun _ _ _ _ h => Raw.noConfusion h)⟩

/-- `getCompilationResult` completing successfully: no error, data present. -/
def gcrSuccess : String → Jv × Jv := fun _ => (Jv.null, Jv.str "artifact")

/-- `getCompilationResult` completing with an error and no data. -/
def gcrFailure : String → Jv × Jv := fun _ => (Jv.str "compile error", Jv.null)

/-- C7: switching focus from `A` to `B` posts `unfocus` to `A` then `focus`
to `B`, but the compilation-data push is inverted: when
`getCompilationResult` succeeds with data available, no `compilationData`
notification is sent, and when it fails, a `compilationData` notification
carrying the failure's null data is sent — the callback reads
`if (!error) return`, keeping only the error case. -/
theorem focus_switch_compilation_data_inverted :
    tabChanged gcrSuccess sampleState "B" =
      ({ sampleState with inFocus := some "B" },
       [{ title := "A", targetOrigin := "https://a", msg := unfocusEnv },
        { title := "B", targetOrigin := "https://b", msg := focusEnv }]) ∧
    tabChanged gcrFailure sampleState "B" =
      ({ sampleState with inFocus := some "B" },
       [{ title := "A", targetOrigin := "https://a", msg := unfocusEnv },
        { title := "B", targetOrigin := "https://b", msg := focusEnv },
        { title := "B", targetOrigin := "https://b", msg := compilationDataEnv Jv.null }]) :=
  ⟨rfl, rfl⟩

/-- Counterexample for C8: re-selecting the already focused, registered
plugin `A` is not a no-op — a `focus` notification is posted to `A` again. -/
theorem refocus_not_noop :
    tabChanged gcrSuccess sampleState "A" =
      (sampleState, [{ title := "A", targetOrigin := "https://a", msg := focusEnv }]) ∧
    (tabChanged gcrSuccess sampleState "A").2.length = 1 :=
  ⟨rfl, rfl⟩

/-- C8 (amended): when the focused plugin `t` is re-selected, no `unfocus`
notification is emitted and the focus state is unchanged, but the transition
is not a no-op: a `focus` notification is re-sent to `t` and the
compilation-data callback runs again (posting `compilationData` exactly when
`getCompilationResult` reports a truthy error). -/
theorem refocus_resends_focus (gcr : String → Jv × Jv) (s : PMState) (t : String)
    (r : PluginRecord) (hfoc : s.inFocus = some t) (hplug : objGet s.plugins t = some r) :
    tabChanged gcr s t =
      (s, { title := t, targetOrigin := r.origin, msg := focusEnv } ::
          (if (gcr t).1.truthy then
            [{ title := t, targetOrigin := r.origin, msg := compilationDataEnv (gcr t).2 }]
          else [])) := by
  have hs : { s with inFocus := some t } = s := by
    cases s
    simp only [PMState.mk.injEq] at hfoc ⊢
    simp [hfoc]
  unfold tabChanged
  rw [hfoc, hplug]
  by_cases hg : (gcr t).1.truthy <;>
    simp [hs, hg, PMState.post, hplug]

/-- Witness for C8's amended theorem: re-selecting `A` in the sample state
with a successful compilation result re-sends exactly one `focus`. -/
theorem refocus_resends_focus_witness :
    sampleState.inFocus = some "A" ∧
    tabChanged gcrSuccess sampleState "A" =
      (sampleState, [{ title := "A", targetOrigin := "https://a", msg := focusEnv }]) :=
  ⟨rfl,
    refocus_resends_focus gcrSuccess sampleState "A"
      { content := 0, modal := 0, origin := "https://a" } rfl rfl⟩

/-- C10: `unregister` only deletes the two dictionary entries — `inFocus` is
left as it was, so it may keep naming a plugin that is no longer registered;
afterwards the title no longer resolves in `plugins`, and any later `post`
addressed to it is silently dropped by `post`'s registration guard. -/
theorem unregister_keeps_focus (s : PMState) (t u : String) :
    (s.unregister t u).inFocus = s.inFocus ∧
    (s.unregister t u).plugins = objDelete s.plugins t ∧
    (s.unregister t u).origins = objDelete s.origins u ∧
    objGet (s.unregister t u).plugins t = none ∧
    ∀ msg, (s.unregister t u).post t msg = [] := by
  refine ⟨rfl, rfl, rfl, objGet_objDelete_self _ _, fun msg => ?_⟩
  simp [PMState.post, PMState.unregister, objGet_objDelete_self]

theorem objGet_of_mem_nodup {α : Type} (m : List (String × α))
    (hnd : (m.map Prod.fst).Nodup) : ∀ p ∈ m, objGet m p.1 = some p.2 := by
  induction m with
  | nil => intro p hp; cases hp
  | cons q rest ih =>
    obtain ⟨k, v⟩ := q
    rw [List.map_cons, List.nodup_cons] at hnd
    intro p hp
    rcases List.mem_cons.mp hp with hp | hp
    · subst hp
      simp [objGet]
    · have hk : k ≠ p.1 := by
        intro hkk
        refine hnd.1 ?_
        rw [hkk]
        exact List.mem_map.mpr ⟨p, hp, rfl⟩
      simp only [objGet, hk, if_false]
      exact ih hnd.2 p hp

theorem flatMap_post_eq (s : PMState) (l : List (String × PluginRecord)) (msg : Envelope)
    (hl : ∀ p ∈ l, objGet s.plugins p.1 = some p.2) :
    (l.map Prod.fst).flatMap (fun t => s.post t msg) =
      l.map (fun p => { title := p.1, targetOrigin := p.2.origin, msg := msg }) := by
  induction l with
  | nil => rfl
  | cons p rest ih =>
    obtain ⟨t, r⟩ := p
    have h1 : objGet s.plugins t = some r := hl (t, r) (List.mem_cons_self _ _)
    have hpost : s.post t msg = [{ title := t, targetOrigin := r.origin, msg := msg }] := by
      simp [PMState.post, h1]
    rw [List.map_cons, List.flatMap_cons, hpost,
      ih (fun q hq => hl q (List.mem_cons_of_mem _ hq)), List.map_cons]
    rfl

/-- C9: with the registered plugins' titles pairwise distinct (as they are
for a JavaScript object's keys), `broadcast` performs exactly one `post`
delivery of the same notification per registered plugin — `k` deliveries for
`k` plugins, none duplicated, none omitted. -/
theorem broadcast_delivers_once_to_each (s : PMState) (msg : Envelope)
    (hnd : (s.plugins.map Prod.fst).Nodup) :
    s.broadcast msg =
      s.plugins.map (fun p => { title := p.1, targetOrigin := p.2.origin, msg := msg }) ∧
    (s.broadcast msg).length = s.plugins.length ∧
    ((s.broadcast msg).map Delivery.title).Nodup := by
  have he : s.broadcast msg =
      s.plugins.map (fun p => { title := p.1, targetOrigin := p.2.origin, msg := msg }) :=
    flatMap_post_eq s s.plugins msg (objGet_of_mem_nodup s.plugins hnd)
  refine ⟨he, by rw [he, List.length_map], ?_⟩
  rw [he, List.map_map]
  exact hnd

/-- A concrete `currentFileChanged` broadcast notification, as built by the
`fileManager` event tap in the constructor. -/
def sampleNotification : Envelope :=
  { action := "notification", key := "editor", type := "currentFileChanged",
    value := [Jv.str "f.txt"] }

/-- Witness for C9: broadcasting to the two sample plugins delivers the
notification exactly twice, once to `A` and once to `B`. -/
theorem broadcast_delivers_once_to_each_witness :
    (sampleState.plugins.map Prod.fst).Nodup ∧
    sampleState.broadcast sampleNotification =
      [{ title := "A", targetOrigin := "https://a", msg := sampleNotification },
       { title := "B", targetOrigin := "https://b", msg := sampleNotification }] ∧
    (sampleState.broadcast sampleNotification).length = 2 :=
  ⟨by decide,
    (broadcast_delivers_once_to_each sampleState sampleNotification (by decide)).1,
    (broadcast_delivers_once_to_each sampleState sampleNotification (by decide)).2.1⟩

/-- A registry operation: one host-facing `register` or `unregister` call. -/
inductive RegOp where
  | reg (title url : String) (modal content : Nat)
  | unreg (title url : String)

/-- Apply one registry operation to the broker state. -/
def applyOp (s : PMState) : RegOp → PMState
  | .reg t u m c => s.register t u m c
  | .unreg t u => s.unregister t u

/-- Apply a sequence of registry operations, left to right. -/
def applyOps (s : PMState) (ops : List RegOp) : PMState := ops.foldl applyOp s

/-- The spec's §3 registry invariant: `origins[u] == t` iff
`plugins[t].origin == u`. -/
def Consistent (s : PMState) : Prop :=
  ∀ u t, objGet s.origins u = some t ↔
    ∃ r, objGet s.plugins t = some r ∧ r.origin = u

/-- No-conflict precondition on a descriptor `(t, u)` against state `s`: the
title, if registered, is registered under this url, and the url, if bound,
is bound to this title. -/
def okDesc (s : PMState) (t u : String) : Bool :=
  (objGet s.plugins t).all (fun r => r.origin == u) &&
  (objGet s.origins u).all (fun t' => t' == t)

/-- No-conflict precondition on one operation. -/
def okOp (s : PMState) : RegOp → Bool
  | .reg t u _ _ => okDesc s t u
  | .unreg t u => okDesc s t u

/-- No-conflict precondition along a whole operation sequence. -/
def okSeq : PMState → List RegOp → Bool
  | _, [] => true
  | s, op :: ops => okOp s op && okSeq (applyOp s op) ops

theorem okDesc_spec (s : PMState) (t u : String) (h : okDesc s t u = true) :
    (∀ r, objGet s.plugins t = some r → r.origin = u) ∧
    (∀ t', objGet s.origins u = some t' → t' = t) := by
  rw [okDesc, Bool.and_eq_true] at h
  constructor
  · intro r hr
    have h1 := h.1
    rw [hr] at h1
    simpa [Option.all] using h1
  · intro t' ht'
    have h2 := h.2
    rw [ht'] at h2
    simpa [Option.all] using h2

theorem consistent_register (s : PMState) (t u : String) (m c : Nat)
    (hc : Consistent s) (hok : okDesc s t u = true) :
    Consistent (s.register t u m c) := by
  obtain ⟨hp, ho⟩ := okDesc_spec s t u hok
  intro v w
  show objGet (objSet s.origins u t) v = some w ↔
    ∃ r, objGet (objSet s.plugins t { content := c, modal := m, origin := u }) w = some r ∧
      r.origin = v
  by_cases hu : v = u
  · subst hu
    rw [objGet_objSet_self]
    by_cases ht : w = t
    · subst ht
      constructor
      · intro _
        exact ⟨_, objGet_objSet_self _ _ _, rfl⟩
      · intro _
        rfl
    · constructor
      · intro hst
        exact absurd (Option.some.inj hst) (Ne.symm ht)
      · rintro ⟨r, hr, hro⟩
        rw [objGet_objSet_ne s.plugins t w _ ht] at hr
        have h2 : objGet s.origins v = some w := (hc v w).mpr ⟨r, hr, hro⟩
        exact absurd (ho w h2) ht
  · rw [objGet_objSet_ne s.origins u v t hu]
    by_cases ht : w = t
    · constructor
      · intro hst
        obtain ⟨r, hr, hro⟩ := (hc v w).mp hst
        rw [ht] at hr
        rw [hp r hr] at hro
        exact absurd hro.symm hu
      · rintro ⟨r, hr, hro⟩
        rw [ht, objGet_objSet_self] at hr
        injection hr with hre
        rw [← hre] at hro
        simp only [] at hro
        exact absurd hro.symm hu
    · rw [objGet_objSet_ne s.plugins t w _ ht]
      exact hc v w

theorem consistent_unregister (s : PMState) (t u : String)
    (hc : Consistent s) (hok : okDesc s t u = true) :
    Consistent (s.unregister t u) := by
  obtain ⟨hp, ho⟩ := okDesc_spec s t u hok
  intro v w
  show objGet (objDelete s.origins u) v = some w ↔
    ∃ r, objGet (objDelete s.plugins t) w = some r ∧ r.origin = v
  by_cases hu : v = u
  · subst hu
    rw [objGet_objDelete_self]
    constructor
    · intro h
      exact Option.noConfusion h
    · rintro ⟨r, hr, hro⟩
      by_cases ht : w = t
      · rw [ht, objGet_objDelete_self] at hr
        exact Option.noConfusion hr
      · rw [objGet_objDelete_ne s.plugins t w ht] at hr
        have h2 : objGet s.origins v = some w := (hc v w).mpr ⟨r, hr, hro⟩
        exact absurd (ho w h2) ht
  · rw [objGet_objDelete_ne s.origins u v hu]
    by_cases ht : w = t
    · constructor
      · intro hst
        obtain ⟨r, hr, hro⟩ := (hc v w).mp hst
        rw [ht] at hr
        rw [hp r hr] at hro
        exact absurd hro.symm hu
      · rintro ⟨r, hr, hro⟩
        rw [ht, objGet_objDelete_self] at hr
        exact Option.noConfusion hr
    · rw [objGet_objDelete_ne s.plugins t w ht]
      exact hc v w

theorem consistent_applyOp (s : PMState) (op : RegOp)
    (hc : Consistent s) (hok : okOp s op = true) : Consistent (applyOp s op) := by
  cases op with
  | reg t u m c => exact consistent_register s t u m c hc hok
  | unreg t u => exact consistent_unregister s t u hc hok

theorem consistent_pmEmpty : Consistent pmEmpty := by
  intro v w
  constructor
  · intro h
    exact Option.noConfusion h
  · rintro ⟨r, hr, _⟩
    exact Option.noConfusion hr

theorem consistent_applyOps (ops : List RegOp) (s : PMState)
    (hc : Consistent s) (hok : okSeq s ops = true) : Consistent (applyOps s ops) := by
  induction ops generalizing s with
  | nil => exact hc
  | cons op rest ih =>
    simp only [okSeq, Bool.and_eq_true] at hok
    exact ih (applyOp s op) (consistent_applyOp s op hc hok.1) hok.2

theorem okSeq_append (s : PMState) (l1 l2 : List RegOp) :
    okSeq s (l1 ++ l2) = (okSeq s l1 && okSeq (applyOps s l1) l2) := by
  induction l1 generalizing s with
  | nil => simp [okSeq, applyOps]
  | cons op rest ih =>
    have h1 : okSeq s ((op :: rest) ++ l2) =
        (okOp s op && okSeq (applyOp s op) (rest ++ l2)) := rfl
    have h2 : okSeq s (op :: rest) = (okOp s op && okSeq (applyOp s op) rest) := rfl
    have h3 : applyOps s (op :: rest) = applyOps (applyOp s op) rest := rfl
    rw [h1, h2, h3, ih (applyOp s op), Bool.and_assoc]

/-- Counterexample for C4: the two-operation sequence
`register({title:'A', url:'u1'})`, `register({title:'A', url:'u2'})` from
the empty registry leaves the mappings mutually inconsistent —
`origins['u1'] == 'A'` while `plugins['A'].origin == 'u2'`, because
`register` overwrites the plugin record without removing the old origin
binding. -/
theorem registry_inconsistent_after_reregister :
    ¬ Consistent (applyOps pmEmpty [RegOp.reg "A" "u1" 0 0, RegOp.reg "A" "u2" 0 0]) := by
  intro h
  obtain ⟨r, hr, hro⟩ := (h "u1" "A").mp rfl
  have hv : objGet (applyOps pmEmpty
      [RegOp.reg "A" "u1" 0 0, RegOp.reg "A" "u2" 0 0]).plugins "A" =
      some { content := 0, modal := 0, origin := "u2" } := rfl
  rw [hv] at hr
  injection hr with hre
  rw [← hre] at hro
  exact absurd hro (by decide)

/-- C4 (amended): starting from the empty registry, the two mappings remain
mutually consistent after each operation of a `register`/`unregister`
sequence provided no operation conflicts with the current bindings: each
`register` uses a title not currently bound to a different origin and an
origin not currently bound to a different title, and each `unregister`
passes the descriptor of the current registration. -/
theorem registry_consistent_after_each_op (ops pre suf : List RegOp)
    (hok : okSeq pmEmpty ops = true) (hsplit : ops = pre ++ suf) :
    Consistent (applyOps pmEmpty pre) := by
  subst hsplit
  rw [okSeq_append, Bool.and_eq_true] at hok
  exact consistent_applyOps pre pmEmpty consistent_pmEmpty hok.1

/-- Witness for C4's amended theorem: a conflict-free
register/unregister/register sequence ends consistent. -/
theorem registry_consistent_after_each_op_witness :
    okSeq pmEmpty
      [RegOp.reg "A" "u1" 0 0, RegOp.unreg "A" "u1", RegOp.reg "B" "u2" 0 0] = true ∧
    Consistent (applyOps pmEmpty
      [RegOp.reg "A" "u1" 0 0, RegOp.unreg "A" "u1", RegOp.reg "B" "u2" 0 0]) :=
  ⟨by decide,
    registry_consistent_after_each_op
      [RegOp.reg "A" "u1" 0 0, RegOp.unreg "A" "u1", RegOp.reg "B" "u2" 0 0]
      [RegOp.reg "A" "u1" 0 0, RegOp.unreg "A" "u1", RegOp.reg "B" "u2" 0 0] []
      (by decide) (List.append_nil _).symm⟩
